import Mathlib

/-!
Shallow embedding of the EduManage Express/MongoDB server
(`index.js`, the full variant with JWT middleware).

Modelling conventions:
* Request bodies are records of `Option` fields; `none` models an absent
  (`undefined`) JSON field.  JavaScript truthiness on strings is modelled by
  `truthy` (absent or empty string is falsy); truthiness on numbers by
  `truthyInt` (absent or `0` is falsy).
* The Mongo collections are Lean lists in insertion order; `findOne` is
  `List.find?`, `insertOne` appends, `updateOne` rewrites the first matching
  document (`updateFirst`), `deleteOne` removes the first matching document
  (`List.eraseP`).  `$addToSet` on `enrolledStudents` is `addEnrolled`.
* Document `_id` values are strings; handlers that insert a document with a
  fresh id take the generated id as an explicit argument.
* Timestamps (`createdAt`, `updatedAt`, ...) carry no information any claim
  depends on and are omitted from the documents.
* Numeric amounts are integers (`parseFloat` of a present numeric field is
  the identity in the model); the unvalidated `price` of a class is kept as
  the raw optional request value.
* The Stripe client is an explicit parameter `stripe : String → Option String`
  mapping a payment-intent id to its status; `none` models a thrown retrieval
  error, `some s` a retrieved intent with `status = s`.
* `jwt.verify` is an explicit parameter `verify : String → Option String`
  returning the decoded email on success and `none` on verification error.
-/

/-- JavaScript truthiness of an optional string field: absent (`undefined`)
and the empty string are falsy. -/
def truthy : Option String → Bool
  | none => false
  | some s => s != ""

/-- JavaScript truthiness of an optional numeric field: absent and `0` are
falsy. -/
def truthyInt : Option Int → Bool
  | none => false
  | some v => v != 0

/-- `updateOne`: rewrite the first element satisfying `p` with `f`. -/
def updateFirst (p : α → Bool) (f : α → α) : List α → List α
  | [] => []
  | x :: xs => if p x then f x :: xs else x :: updateFirst p f xs

/-- A `users` document. -/
structure User where
  uid : String
  name : String
  email : String
  photoURL : String
  role : String
deriving Repr, DecidableEq

/-- A `teacher-applications` document. -/
structure TeacherApplication where
  id : String
  uid : String
  name : String
  email : String
  photoURL : String
  title : String
  experience : String
  category : String
  status : String
deriving Repr, DecidableEq

/-- A `classes` document.  `enrolledStudents` is optional because documents
not created through `POST /classes` may lack the field (the code guards with
`classData.enrolledStudents && ...` and the aggregation uses `$ifNull`). -/
structure ClassDoc where
  id : String
  title : Option String
  teacherName : Option String
  teacherEmail : Option String
  teacherUid : Option String
  price : Option Int
  description : Option String
  image : Option String
  status : String
  enrolledStudents : Option (List String)
deriving Repr, DecidableEq

/-- A `payments` document.  Records inserted by `POST /payments` have no
`stripePaymentIntentId` and no `source` field (`none`). -/
structure PaymentRecord where
  stripePaymentIntentId : Option String
  transactionId : String
  classId : String
  studentUid : String
  studentName : Option String
  studentEmail : Option String
  amount : Int
  paymentMethod : String
  paymentMethodId : Option String
  status : String
  source : Option String
deriving Repr, DecidableEq

/-- An `assignments` document. -/
structure Assignment where
  classId : String
  teacherUid : String
  title : String
  deadline : String
  description : String
deriving Repr, DecidableEq

/-- A `submissions` document. -/
structure Submission where
  assignmentId : String
  classId : String
  studentUid : String
  studentName : String
  studentEmail : String
  submissionText : String
  status : String
deriving Repr, DecidableEq

/-- A `teaching-evaluations` document. -/
structure Evaluation where
  classId : String
  teacherUid : String
  studentUid : String
  studentName : String
  studentEmail : String
  rating : Int
  description : String
deriving Repr, DecidableEq

/-- The edu-manage database: one list per collection, in insertion order. -/
structure Db where
  users : List User
  teacherApplications : List TeacherApplication
  classes : List ClassDoc
  payments : List PaymentRecord
  assignments : List Assignment
  submissions : List Submission
  evaluations : List Evaluation
deriving Repr, DecidableEq

/-- An HTTP response: status code, the `success` flag and the `message`
field of the JSON envelope. -/
structure Response where
  status : Nat
  success : Bool
  message : String
deriving Repr, DecidableEq

/-- `classData.enrolledStudents && classData.enrolledStudents.includes(uid)`. -/
def enrolledContains (c : ClassDoc) (uid : String) : Bool :=
  match c.enrolledStudents with
  | none => false
  | some l => l.contains uid

/-- Mongo `$addToSet: { enrolledStudents: uid }` on one class document:
creates the field when absent, appends when not already a member. -/
def addEnrolled (c : ClassDoc) (uid : String) : ClassDoc :=
  match c.enrolledStudents with
  | none => { c with enrolledStudents := some [uid] }
  | some l =>
      { c with enrolledStudents := some (if l.contains uid then l else l ++ [uid]) }

/-- Request body of `POST /users`. -/
structure PostUsersReq where
  uid : Option String
  name : Option String
  email : Option String
  photoURL : Option String
deriving Repr, DecidableEq

/-- `!uid || !name || !email` negated. -/
def usersFieldsValid (req : PostUsersReq) : Bool :=
  truthy req.uid && truthy req.name && truthy req.email

/-- `POST /users`. -/
def postUsers (db : Db) (req : PostUsersReq) : Response × Db :=
  if usersFieldsValid req then
    match db.users.find? (fun u => u.uid == req.uid.getD "") with
    | some _ => (⟨409, false, "User already exists"⟩, db)
    | none =>
        let userDoc : User :=
          { uid := req.uid.getD "", name := req.name.getD ""
            email := req.email.getD "", photoURL := req.photoURL.getD ""
            role := "student" }
        (⟨201, true, "User registered successfully"⟩,
          { db with users := db.users ++ [userDoc] })
  else
    (⟨400, false, "Missing required fields: uid, name, email"⟩, db)

/-- Request body of `POST /teacher-applications`. -/
structure ApplicationReq where
  uid : Option String
  name : Option String
  email : Option String
  photoURL : Option String
  title : Option String
  experience : Option String
  category : Option String
deriving Repr, DecidableEq

/-- Required-field check of `POST /teacher-applications`. -/
def applicationFieldsValid (req : ApplicationReq) : Bool :=
  truthy req.uid && truthy req.name && truthy req.email &&
    truthy req.title && truthy req.experience && truthy req.category

/-- `POST /teacher-applications`. -/
def postTeacherApplications (db : Db) (newId : String) (req : ApplicationReq) :
    Response × Db :=
  if applicationFieldsValid req then
    match db.teacherApplications.find? (fun a => a.uid == req.uid.getD "") with
    | some _ =>
        (⟨409, false, "You have already submitted a teaching application"⟩, db)
    | none =>
        let applicationDoc : TeacherApplication :=
          { id := newId, uid := req.uid.getD "", name := req.name.getD ""
            email := req.email.getD "", photoURL := req.photoURL.getD ""
            title := req.title.getD "", experience := req.experience.getD ""
            category := req.category.getD "", status := "pending" }
        (⟨201, true, "Teaching application submitted successfully"⟩,
          { db with teacherApplications := db.teacherApplications ++ [applicationDoc] })
  else
    (⟨400, false, "Missing required fields"⟩, db)

/-- Status allowed by `PATCH /teacher-applications/:id`:
`["approved", "rejected"].includes(status)`. -/
def validAppStatus (status : Option String) : Bool :=
  ["approved", "rejected"].contains (status.getD "")

/-- `PATCH /teacher-applications/:id`. -/
def patchApplicationStatus (db : Db) (id : String) (status : Option String) :
    Response × Db :=
  if validAppStatus status then
    match db.teacherApplications.find? (fun a => a.id == id) with
    | none => (⟨404, false, "Application not found"⟩, db)
    | some _ =>
        let apps :=
          updateFirst (fun a => a.id == id)
            (fun a => { a with status := status.getD "" })
            db.teacherApplications
        (⟨200, true, "Application reviewed successfully"⟩,
          { db with teacherApplications := apps })
  else
    (⟨400, false, "Invalid status. Must be \x27approved\x27 or \x27rejected\x27"⟩, db)

/-- Role allowed by `PATCH /users/:uid`:
`["student", "teacher", "admin"].includes(role)`. -/
def validRole (role : Option String) : Bool :=
  ["student", "teacher", "admin"].contains (role.getD "")

/-- `PATCH /users/:uid`. -/
def patchUserRole (db : Db) (uid : String) (role : Option String) :
    Response × Db :=
  if validRole role then
    match db.users.find? (fun u => u.uid == uid) with
    | none => (⟨404, false, "User not found"⟩, db)
    | some _ =>
        let users :=
          updateFirst (fun u => u.uid == uid)
            (fun u => { u with role := role.getD "" }) db.users
        (⟨200, true, "User role updated successfully"⟩, { db with users := users })
  else
    (⟨400, false, "Invalid role"⟩, db)

/-- Request body of `POST /classes`. -/
structure PostClassesReq where
  title : Option String
  teacherName : Option String
  teacherEmail : Option String
  teacherUid : Option String
  price : Option Int
  description : Option String
  image : Option String
deriving Repr, DecidableEq

/-- `POST /classes`: the handler performs no required-field validation; it
builds the document straight from the body and inserts it with status
`"pending"` and an empty `enrolledStudents` array. -/
def postClasses (db : Db) (newId : String) (req : PostClassesReq) :
    Response × Db :=
  let classDoc : ClassDoc :=
    { id := newId, title := req.title, teacherName := req.teacherName
      teacherEmail := req.teacherEmail, teacherUid := req.teacherUid
      price := req.price, description := req.description, image := req.image
      status := "pending", enrolledStudents := some [] }
  (⟨201, true, "Class created successfully and awaiting approval"⟩,
    { db with classes := db.classes ++ [classDoc] })

/-- Status allowed by `PATCH /classes/:id`:
`["approved", "rejected", "pending"].includes(status)`. -/
def validClassStatus (status : Option String) : Bool :=
  ["approved", "rejected", "pending"].contains (status.getD "")

/-- `PATCH /classes/:id` (admin approval/rejection). -/
def patchClassStatus (db : Db) (id : String) (status : Option String) :
    Response × Db :=
  if validClassStatus status then
    match db.classes.find? (fun c => c.id == id) with
    | none => (⟨404, false, "Class not found"⟩, db)
    | some _ =>
        let classes :=
          updateFirst (fun c => c.id == id)
            (fun c => { c with status := status.getD "" }) db.classes
        (⟨200, true, "Class status updated successfully"⟩,
          { db with classes := classes })
  else
    (⟨400, false,
       "Invalid status. Must be \x27approved\x27, \x27rejected\x27, or \x27pending\x27"⟩,
     db)

/-- `DELETE /classes/:id`. -/
def deleteClass (db : Db) (id : String) : Response × Db :=
  match db.classes.find? (fun c => c.id == id) with
  | none => (⟨404, false, "Class not found"⟩, db)
  | some _ =>
      (⟨200, true, "Class deleted successfully"⟩,
        { db with classes := db.classes.eraseP (fun c => c.id == id) })

/-- Request body of `PATCH /classes/:id/content`. -/
structure PatchContentReq where
  title : Option String
  price : Option Int
  description : Option String
  image : Option String
deriving Repr, DecidableEq

/-- `!title || price === undefined || !description || !image` negated;
note that `price` is only tested for presence, not truthiness. -/
def contentFieldsValid (req : PatchContentReq) : Bool :=
  truthy req.title && !req.price.isNone && truthy req.description &&
    truthy req.image

/-- `PATCH /classes/:id/content`: after validation it issues `updateOne` and
returns success unconditionally, never inspecting `matchedCount`. -/
def patchClassContent (db : Db) (id : String) (req : PatchContentReq) :
    Response × Db :=
  if contentFieldsValid req then
    let classes :=
      updateFirst (fun c => c.id == id)
        (fun c =>
          { c with title := req.title, price := req.price
                   description := req.description, image := req.image })
        db.classes
    (⟨200, true, "Class updated successfully"⟩, { db with classes := classes })
  else
    (⟨400, false, "Missing required fields"⟩, db)

/-- Request body of `POST /payments`. -/
structure PostPaymentsReq where
  classId : Option String
  studentUid : Option String
  studentName : Option String
  studentEmail : Option String
  amount : Option Int
  paymentMethodId : Option String
  transactionId : Option String
deriving Repr, DecidableEq

/-- `!classId || !studentUid || !amount || !transactionId` negated. -/
def paymentsFieldsValid (req : PostPaymentsReq) : Bool :=
  truthy req.classId && truthy req.studentUid && truthyInt req.amount &&
    truthy req.transactionId

/-- `paymentMethodId || null`: a falsy value (absent or empty string) is
stored as `null`. -/
def orNull : Option String → Option String
  | none => none
  | some s => if s == "" then none else some s

/-- The payment document inserted by `POST /payments`. -/
def mkCardPayment (req : PostPaymentsReq) : PaymentRecord :=
  { stripePaymentIntentId := none
    transactionId := req.transactionId.getD ""
    classId := req.classId.getD ""
    studentUid := req.studentUid.getD ""
    studentName := req.studentName
    studentEmail := req.studentEmail
    amount := req.amount.getD 0
    paymentMethod := "stripe"
    paymentMethodId := orNull req.paymentMethodId
    status := "completed"
    source := none }

/-- `updateOne({_id: classId}, {$addToSet: {enrolledStudents: uid}})`. -/
def enrollStudent (db : Db) (cid uid : String) : Db :=
  { db with classes :=
      updateFirst (fun c => c.id == cid) (fun c => addEnrolled c uid) db.classes }

/-- `POST /payments`: validate, check the class, reject when already
enrolled, otherwise insert the payment record unconditionally and add the
student to the enrolled set. -/
def postPayments (db : Db) (req : PostPaymentsReq) : Response × Db :=
  if paymentsFieldsValid req then
    match db.classes.find? (fun c => c.id == req.classId.getD "") with
    | none => (⟨404, false, "Class not found"⟩, db)
    | some classData =>
        if classData.status != "approved" then
          (⟨400, false, "Class is not available for enrollment"⟩, db)
        else if enrolledContains classData (req.studentUid.getD "") then
          (⟨409, false, "Student is already enrolled in this class"⟩, db)
        else
          let db1 := { db with payments := db.payments ++ [mkCardPayment req] }
          (⟨201, true, "Payment successful and enrolled in class"⟩,
            enrollStudent db1 (req.classId.getD "") (req.studentUid.getD ""))
  else
    (⟨400, false, "Missing required payment fields"⟩, db)

/-- Request body of `POST /process-enrollment`. -/
structure EnrollReq where
  paymentIntentId : Option String
  classId : Option String
  studentUid : Option String
  studentName : Option String
  studentEmail : Option String
  amount : Option Int
deriving Repr, DecidableEq

/-- `!paymentIntentId || !classId || !studentUid || !amount` negated. -/
def enrollFieldsValid (req : EnrollReq) : Bool :=
  truthy req.paymentIntentId && truthy req.classId &&
    truthy req.studentUid && truthyInt req.amount

/-- The duplicate-payment query of `POST /process-enrollment`:
`$or: [{stripePaymentIntentId: pid}, {transactionId: pid}]`. -/
def paymentMatches (pid : String) (p : PaymentRecord) : Bool :=
  p.stripePaymentIntentId == some pid || p.transactionId == pid

/-- The payment document inserted by `POST /process-enrollment`. -/
def mkEnrollPayment (req : EnrollReq) : PaymentRecord :=
  { stripePaymentIntentId := some (req.paymentIntentId.getD "")
    transactionId := req.paymentIntentId.getD ""
    classId := req.classId.getD ""
    studentUid := req.studentUid.getD ""
    studentName := some (req.studentName.getD "")
    studentEmail := some (req.studentEmail.getD "")
    amount := req.amount.getD 0
    paymentMethod := "stripe"
    paymentMethodId := none
    status := "completed"
    source := some "direct_enrollment" }

/-- Step 4 of the enrollment workflow: insert the payment record only when
no record matches the payment-intent id. -/
def insertPaymentIfAbsent (db : Db) (req : EnrollReq) : Db :=
  match db.payments.find? (paymentMatches (req.paymentIntentId.getD "")) with
  | some _ => db
  | none => { db with payments := db.payments ++ [mkEnrollPayment req] }

/-- `POST /process-enrollment`.  `stripe` maps a payment-intent id to the
retrieved intent status (`none` models a retrieval error). -/
def processEnrollment (stripe : String → Option String) (db : Db)
    (req : EnrollReq) : Response × Db :=
  if enrollFieldsValid req then
    match stripe (req.paymentIntentId.getD "") with
    | none => (⟨400, false, "Unable to verify payment"⟩, db)
    | some piStatus =>
        if piStatus != "succeeded" then
          (⟨400, false, "Payment was not successful"⟩, db)
        else
          match db.classes.find? (fun c => c.id == req.classId.getD "") with
          | none => (⟨404, false, "Class not found"⟩, db)
          | some classData =>
              if classData.status != "approved" then
                (⟨400, false, "Class is not available for enrollment"⟩, db)
              else if enrolledContains classData (req.studentUid.getD "") then
                (⟨200, true, "Student is already enrolled in this class"⟩, db)
              else
                (⟨200, true, "Enrollment completed successfully"⟩,
                  enrollStudent (insertPaymentIfAbsent db req)
                    (req.classId.getD "") (req.studentUid.getD ""))
  else
    (⟨400, false, "Missing required enrollment fields"⟩, db)

/-- Request body of `POST /assignments`. -/
structure AssignmentReq where
  classId : Option String
  teacherUid : Option String
  title : Option String
  deadline : Option String
  description : Option String
deriving Repr, DecidableEq

/-- `!classId || !teacherUid || !title || !deadline || !description` negated. -/
def assignmentFieldsValid (req : AssignmentReq) : Bool :=
  truthy req.classId && truthy req.teacherUid && truthy req.title &&
    truthy req.deadline && truthy req.description

/-- `POST /assignments`. -/
def postAssignments (db : Db) (req : AssignmentReq) : Response × Db :=
  if assignmentFieldsValid req then
    let assignmentDoc : Assignment :=
      { classId := req.classId.getD "", teacherUid := req.teacherUid.getD ""
        title := req.title.getD "", deadline := req.deadline.getD ""
        description := req.description.getD "" }
    (⟨201, true, "Assignment created successfully"⟩,
      { db with assignments := db.assignments ++ [assignmentDoc] })
  else
    (⟨400, false, "Missing required fields"⟩, db)

/-- Request body of `POST /submissions`. -/
structure SubmissionReq where
  assignmentId : Option String
  classId : Option String
  studentUid : Option String
  studentName : Option String
  studentEmail : Option String
  submissionText : Option String
deriving Repr, DecidableEq

/-- `!assignmentId || !classId || !studentUid || !submissionText` negated. -/
def submissionFieldsValid (req : SubmissionReq) : Bool :=
  truthy req.assignmentId && truthy req.classId && truthy req.studentUid &&
    truthy req.submissionText

/-- `POST /submissions`. -/
def postSubmissions (db : Db) (req : SubmissionReq) : Response × Db :=
  if submissionFieldsValid req then
    match db.submissions.find?
        (fun s => s.assignmentId == req.assignmentId.getD "" &&
          s.studentUid == req.studentUid.getD "") with
    | some _ =>
        (⟨409, false, "You have already submitted this assignment"⟩, db)
    | none =>
        let submissionDoc : Submission :=
          { assignmentId := req.assignmentId.getD ""
            classId := req.classId.getD ""
            studentUid := req.studentUid.getD ""
            studentName := req.studentName.getD ""
            studentEmail := req.studentEmail.getD ""
            submissionText := req.submissionText.getD ""
            status := "submitted" }
        (⟨201, true, "Assignment submitted successfully"⟩,
          { db with submissions := db.submissions ++ [submissionDoc] })
  else
    (⟨400, false, "Missing required fields"⟩, db)

/-- Request body of `POST /teaching-evaluations`. -/
structure EvalReq where
  classId : Option String
  teacherUid : Option String
  studentUid : Option String
  studentName : Option String
  studentEmail : Option String
  rating : Option Int
  description : Option String
deriving Repr, DecidableEq

/-- `!classId || !teacherUid || !studentUid || !rating || !description`
negated; note a rating of `0` is falsy in JavaScript. -/
def evalFieldsValid (req : EvalReq) : Bool :=
  truthy req.classId && truthy req.teacherUid && truthy req.studentUid &&
    truthyInt req.rating && truthy req.description

/-- `POST /teaching-evaluations`. -/
def postTeachingEvaluations (db : Db) (req : EvalReq) : Response × Db :=
  if evalFieldsValid req then
    if req.rating.getD 0 < 1 || 5 < req.rating.getD 0 then
      (⟨400, false, "Rating must be between 1 and 5"⟩, db)
    else
      match db.evaluations.find?
          (fun e => e.classId == req.classId.getD "" &&
            e.studentUid == req.studentUid.getD "") with
      | some _ =>
          (⟨409, false,
             "You have already submitted an evaluation for this class"⟩, db)
      | none =>
          let evaluationDoc : Evaluation :=
            { classId := req.classId.getD ""
              teacherUid := req.teacherUid.getD ""
              studentUid := req.studentUid.getD ""
              studentName := req.studentName.getD ""
              studentEmail := req.studentEmail.getD ""
              rating := req.rating.getD 0
              description := req.description.getD "" }
          (⟨201, true, "Teaching evaluation submitted successfully"⟩,
            { db with evaluations := db.evaluations ++ [evaluationDoc] })
  else
    (⟨400, false, "Missing required fields"⟩, db)

/-- Result of the `verifyJWT` middleware: either an early rejection response
or the decoded identity handed to the handler as `req.decoded`. -/
inductive AuthResult where
  | rejected (status : Nat) (message : String)
  | authorized (email : String)
deriving Repr, DecidableEq

/-- The `verifyJWT` middleware.  `verify` abstracts
`jwt.verify(token, secret)`: `none` is a verification error, `some email`
the decoded payload.  The token is `authorization.split(" ")[1]`. -/
def verifyJWT (verify : String → Option String)
    (authorization : Option String) : AuthResult :=
  match authorization with
  | none => .rejected 401 "No token provided"
  | some a =>
      if a == "" then .rejected 401 "No token provided"
      else if (a.splitOn " ").getD 1 "" == "" then
        .rejected 401 "No token provided"
      else
        match verify ((a.splitOn " ").getD 1 "") with
        | none => .rejected 403 "Invalid token"
        | some email => .authorized email

/-- A registered Express route; `requiresAuth` records whether the
`verifyJWT` middleware is attached to it in the source. -/
structure Route where
  method : String
  path : String
  requiresAuth : Bool
deriving Repr, DecidableEq

/-- Every route registration of the server, in source order, with its
middleware flag. -/
def routes : List Route := [
  ⟨"GET", "/", false⟩,
  ⟨"POST", "/jwt", false⟩,
  ⟨"GET", "/verify-jwt", true⟩,
  ⟨"POST", "/users", false⟩,
  ⟨"POST", "/teacher-applications", true⟩,
  ⟨"GET", "/users/:uid", true⟩,
  ⟨"GET", "/teacher-applications", true⟩,
  ⟨"PATCH", "/teacher-applications/:id", true⟩,
  ⟨"PATCH", "/users/:uid", true⟩,
  ⟨"GET", "/users", true⟩,
  ⟨"POST", "/classes", true⟩,
  ⟨"GET", "/classes", true⟩,
  ⟨"GET", "/classes/teacher/:uid", true⟩,
  ⟨"PATCH", "/classes/:id", true⟩,
  ⟨"DELETE", "/classes/:id", true⟩,
  ⟨"PATCH", "/classes/:id/content", true⟩,
  ⟨"GET", "/classes/:id", true⟩,
  ⟨"POST", "/payments", true⟩,
  ⟨"GET", "/students/:uid/enrolled-classes", true⟩,
  ⟨"GET", "/students/:uid/payments", true⟩,
  ⟨"POST", "/create-payment-intent", true⟩,
  ⟨"POST", "/process-enrollment", true⟩,
  ⟨"POST", "/assignments", true⟩,
  ⟨"GET", "/assignments/class/:classId", true⟩,
  ⟨"GET", "/submissions/class/:classId", true⟩,
  ⟨"GET", "/submissions/student/:uid/class/:classId", true⟩,
  ⟨"POST", "/submissions", true⟩,
  ⟨"POST", "/teaching-evaluations", true⟩,
  ⟨"GET", "/popular-classes", false⟩,
  ⟨"GET", "/teaching-evaluations", false⟩]

/-- `$size: {$ifNull: ["$enrolledStudents", []]}`. -/
def enrollmentCount (c : ClassDoc) : Nat :=
  (c.enrolledStudents.getD []).length

/-- The `$sort: {enrollmentCount: -1}` order: `a` before `b` when the count
of `b` is at most the count of `a`. -/
def popularityOrder (a b : ClassDoc) : Prop :=
  enrollmentCount b ≤ enrollmentCount a

instance : DecidableRel popularityOrder := fun a b =>
  Nat.decLe (enrollmentCount b) (enrollmentCount a)

instance : IsTotal ClassDoc popularityOrder :=
  ⟨fun a b => le_total (enrollmentCount b) (enrollmentCount a)⟩

instance : IsTrans ClassDoc popularityOrder :=
  ⟨fun _ _ _ hab hbc => le_trans hbc hab⟩

/-- The `GET /popular-classes` aggregation pipeline:
match approved, sort by descending enrollment count, limit 6. -/
def popularClasses (db : Db) : List ClassDoc :=
  (((db.classes.filter (fun c => c.status == "approved")).insertionSort
      popularityOrder).take 6)

/-- Payment records matching a provider payment id. -/
def countPid (pid : String) (db : Db) : Nat :=
  db.payments.countP (paymentMatches pid)

/-- Completed payment records for a provider payment id: the quantity the
data-model invariant bounds by one. -/
def completedCount (pid : String) (db : Db) : Nat :=
  db.payments.countP (fun p => p.status == "completed" && paymentMatches pid p)

lemma addEnrolled_id (c : ClassDoc) (uid : String) :
    (addEnrolled c uid).id = c.id := by
  unfold addEnrolled; cases c.enrolledStudents <;> rfl

lemma addEnrolled_status (c : ClassDoc) (uid : String) :
    (addEnrolled c uid).status = c.status := by
  unfold addEnrolled; cases c.enrolledStudents <;> rfl

lemma enrolledContains_addEnrolled_self (c : ClassDoc) (uid : String) :
    enrolledContains (addEnrolled c uid) uid = true := by
  unfold addEnrolled enrolledContains
  cases h : c.enrolledStudents with
  | none => simp
  | some l =>
      by_cases hl : uid ∈ l
      · simp [hl]
      · simp [hl]

lemma count_addEnrolled (c : ClassDoc) (uid : String)
    (h : enrolledContains c uid = false) :
    ((addEnrolled c uid).enrolledStudents.getD []).count uid = 1 := by
  unfold addEnrolled
  cases hc : c.enrolledStudents with
  | none => simp
  | some l =>
      have hl : l.contains uid = false := by
        simpa [enrolledContains, hc] using h
      have hmem : uid ∉ l := by simpa using hl
      simp [hmem, List.count_append, List.count_eq_zero.2 hmem]

lemma find?_updateFirst (p : α → Bool) (f : α → α) (l : List α)
    (hf : ∀ x, p x = true → p (f x) = true) :
    (updateFirst p f l).find? p = (l.find? p).map f := by
  induction l with
  | nil => rfl
  | cons a l ih =>
      by_cases h : p a = true
      · simp [updateFirst, h, List.find?_cons_of_pos, hf a h]
      · have h' : p a = false := by simpa using h
        simp [updateFirst, h', List.find?_cons_of_neg, ih]

lemma insertPaymentIfAbsent_classes (db : Db) (req : EnrollReq) :
    (insertPaymentIfAbsent db req).classes = db.classes := by
  unfold insertPaymentIfAbsent; split <;> rfl

lemma enrollStudent_payments (db : Db) (cid uid : String) :
    (enrollStudent db cid uid).payments = db.payments := rfl

lemma find?_eq_none_of_countP_zero (p : α → Bool) (l : List α)
    (h : l.countP p = 0) : l.find? p = none := by
  rw [List.find?_eq_none]
  intro x hx
  exact (List.countP_eq_zero.1 h) x hx

/-- Branch reduction of `POST /process-enrollment`: payment succeeded, class
approved, student already enrolled. -/
lemma processEnrollment_enrolled_eq (stripe : String → Option String)
    (db : Db) (req : EnrollReq) (c : ClassDoc)
    (hvalid : enrollFieldsValid req = true)
    (hstripe : stripe (req.paymentIntentId.getD "") = some "succeeded")
    (hfind : db.classes.find? (fun x => x.id == req.classId.getD "") = some c)
    (happroved : c.status = "approved")
    (hen : enrolledContains c (req.studentUid.getD "") = true) :
    processEnrollment stripe db req =
      (⟨200, true, "Student is already enrolled in this class"⟩, db) := by
  simp [processEnrollment, hvalid, hstripe, hfind, happroved, hen]

/-- Branch reduction of `POST /process-enrollment`: payment succeeded, class
approved, student not yet enrolled. -/
lemma processEnrollment_fresh_eq (stripe : String → Option String)
    (db : Db) (req : EnrollReq) (c : ClassDoc)
    (hvalid : enrollFieldsValid req = true)
    (hstripe : stripe (req.paymentIntentId.getD "") = some "succeeded")
    (hfind : db.classes.find? (fun x => x.id == req.classId.getD "") = some c)
    (happroved : c.status = "approved")
    (hnot : enrolledContains c (req.studentUid.getD "") = false) :
    processEnrollment stripe db req =
      (⟨200, true, "Enrollment completed successfully"⟩,
        enrollStudent (insertPaymentIfAbsent db req)
          (req.classId.getD "") (req.studentUid.getD "")) := by
  simp [processEnrollment, hvalid, hstripe, hfind, happroved, hnot]

/-- An approved class with no enrolled students, used as a concrete fixture. -/
def clsApproved : ClassDoc :=
  { id := "cls1", title := some "Algebra", teacherName := some "T"
    teacherEmail := some "t@edu.io", teacherUid := some "t1", price := some 50
    description := some "intro", image := some "img", status := "approved"
    enrolledStudents := some [] }

/-- A database holding just the approved class. -/
def dbOneClass : Db := ⟨[], [], [clsApproved], [], [], [], []⟩

/-- A Stripe stub that reports intent `pi_1` as succeeded. -/
def stripeOk : String → Option String :=
  fun p => if p == "pi_1" then some "succeeded" else none

/-- A well-formed enrollment request for `pi_1` / `cls1` / `stu1`. -/
def enrollReq1 : EnrollReq :=
  { paymentIntentId := some "pi_1", classId := some "cls1"
    studentUid := some "stu1", studentName := some "S"
    studentEmail := some "s@edu.io", amount := some 50 }

/-- C1: for a valid enrollment request (payment succeeded, class approved,
student not yet enrolled, payment-intent id unused), repeating
`POST /process-enrollment` returns success and leaves the database exactly
as after the first call; afterwards exactly one payment record matches the
payment-intent id and the student uid occurs exactly once in the enrolled
set of the class. -/
theorem processEnrollment_idempotent
    (stripe : String → Option String) (db : Db) (req : EnrollReq)
    (pid : String) (c : ClassDoc)
    (hvalid : enrollFieldsValid req = true)
    (hpid : req.paymentIntentId = some pid)
    (hstripe : stripe pid = some "succeeded")
    (hfind : db.classes.find? (fun x => x.id == req.classId.getD "") = some c)
    (happroved : c.status = "approved")
    (hnot : enrolledContains c (req.studentUid.getD "") = false)
    (hfresh : countPid pid db = 0) :
    processEnrollment stripe (processEnrollment stripe db req).2 req =
      (⟨200, true, "Student is already enrolled in this class"⟩,
        (processEnrollment stripe db req).2) ∧
    countPid pid (processEnrollment stripe db req).2 = 1 ∧
    ∃ c1, (processEnrollment stripe db req).2.classes.find?
        (fun x => x.id == req.classId.getD "") = some c1 ∧
      (c1.enrolledStudents.getD []).count (req.studentUid.getD "") = 1 := by
  have hstripe' : stripe (req.paymentIntentId.getD "") = some "succeeded" := by
    rw [hpid]; exact hstripe
  have h1 := processEnrollment_fresh_eq stripe db req c hvalid hstripe' hfind
    happroved hnot
  have hdb1 : (processEnrollment stripe db req).2 =
      enrollStudent (insertPaymentIfAbsent db req)
        (req.classId.getD "") (req.studentUid.getD "") := by rw [h1]
  have hclasses : (enrollStudent (insertPaymentIfAbsent db req)
      (req.classId.getD "") (req.studentUid.getD "")).classes =
      updateFirst (fun x => x.id == req.classId.getD "")
        (fun x => addEnrolled x (req.studentUid.getD "")) db.classes := by
    simp [enrollStudent, insertPaymentIfAbsent_classes]
  have hfind1 : (processEnrollment stripe db req).2.classes.find?
      (fun x => x.id == req.classId.getD "") =
      some (addEnrolled c (req.studentUid.getD "")) := by
    rw [hdb1, hclasses,
      find?_updateFirst _ _ _ (fun x hx => by simpa [addEnrolled_id] using hx),
      hfind]
    rfl
  have hnone : db.payments.find?
      (paymentMatches (req.paymentIntentId.getD "")) = none := by
    rw [hpid]
    exact find?_eq_none_of_countP_zero _ _ hfresh
  have hpay : (processEnrollment stripe db req).2.payments =
      db.payments ++ [mkEnrollPayment req] := by
    rw [hdb1, enrollStudent_payments]
    simp [insertPaymentIfAbsent, hnone]
  have hmatch : paymentMatches pid (mkEnrollPayment req) = true := by
    simp [paymentMatches, mkEnrollPayment, hpid]
  have hfresh' : db.payments.countP (paymentMatches pid) = 0 := hfresh
  have hcount : countPid pid (processEnrollment stripe db req).2 = 1 := by
    unfold countPid
    rw [hpay, List.countP_append]
    simp [List.countP_cons, hmatch, hfresh']
  refine ⟨?_, hcount,
    ⟨addEnrolled c (req.studentUid.getD ""), hfind1,
      count_addEnrolled c _ hnot⟩⟩
  exact processEnrollment_enrolled_eq stripe _ req
    (addEnrolled c (req.studentUid.getD "")) hvalid hstripe' hfind1
    (by rw [addEnrolled_status]; exact happroved)
    (enrolledContains_addEnrolled_self c _)

/-- Witness for C1 at the concrete fixture. -/
theorem processEnrollment_idempotent_witness :
    processEnrollment stripeOk
        (processEnrollment stripeOk dbOneClass enrollReq1).2 enrollReq1 =
      (⟨200, true, "Student is already enrolled in this class"⟩,
        (processEnrollment stripeOk dbOneClass enrollReq1).2) ∧
    countPid "pi_1" (processEnrollment stripeOk dbOneClass enrollReq1).2 = 1 ∧
    ∃ c1, (processEnrollment stripeOk dbOneClass enrollReq1).2.classes.find?
        (fun x => x.id == enrollReq1.classId.getD "") = some c1 ∧
      (c1.enrolledStudents.getD []).count (enrollReq1.studentUid.getD "") = 1 :=
  processEnrollment_idempotent stripeOk dbOneClass enrollReq1 "pi_1"
    clsApproved (by decide) rfl (by decide) (by decide) rfl rfl rfl

/-- A second approved class, distinct from `clsApproved`. -/
def clsApprovedB : ClassDoc :=
  { clsApproved with id := "cls2", title := some "Geometry" }

/-- A database holding two approved classes and no payments. -/
def dbTwoClasses : Db := ⟨[], [], [clsApproved, clsApprovedB], [], [], [], []⟩

/-- A card payment request for `cls1` with transaction id `tx_1`. -/
def payReqA : PostPaymentsReq :=
  { classId := some "cls1", studentUid := some "stu1", studentName := some "S"
    studentEmail := some "s@edu.io", amount := some 50
    paymentMethodId := none, transactionId := some "tx_1" }

/-- The same transaction id replayed against `cls2`. -/
def payReqB : PostPaymentsReq := { payReqA with classId := some "cls2" }

/-- C2 counterexample: starting from a database with no payment records,
two `POST /payments` calls that reuse transaction id `tx_1` for two
different classes leave TWO completed payment records with that provider
payment id, because `POST /payments` never checks for an existing record. -/
theorem postPayments_breaks_completed_uniqueness :
    dbTwoClasses.payments = [] ∧
    completedCount "tx_1"
      (postPayments (postPayments dbTwoClasses payReqA).2 payReqB).2 = 2 := by
  constructor
  · rfl
  · decide

/-- The payments collection after `POST /process-enrollment` is either
untouched or extended by the one new record, and in the latter case no
existing record matched the payment-intent id. -/
lemma processEnrollment_payments (stripe : String → Option String)
    (db : Db) (req : EnrollReq) :
    (processEnrollment stripe db req).2.payments = db.payments ∨
    ((processEnrollment stripe db req).2.payments
        = db.payments ++ [mkEnrollPayment req] ∧
      db.payments.find? (paymentMatches (req.paymentIntentId.getD "")) = none) := by
  unfold processEnrollment
  split
  · split
    · left; rfl
    · split
      · left; rfl
      · split
        · left; rfl
        · split
          · left; rfl
          · split
            · left; rfl
            · rw [enrollStudent_payments]
              unfold insertPaymentIfAbsent
              split
              · left; rfl
              · next h => right; exact ⟨rfl, h⟩
  · left; rfl

/-- C2 amended: `POST /process-enrollment` preserves the at-most-one
completed record per provider payment id invariant (its pre-check covers
both the `stripePaymentIntentId` and the `transactionId` field). -/
theorem processEnrollment_preserves_completed_uniqueness
    (stripe : String → Option String) (db : Db) (req : EnrollReq)
    (h : ∀ pid, completedCount pid db ≤ 1) :
    ∀ pid, completedCount pid (processEnrollment stripe db req).2 ≤ 1 := by
  intro pid
  rcases processEnrollment_payments stripe db req with hsame | ⟨happ, hnone⟩
  · unfold completedCount
    rw [hsame]
    exact h pid
  · unfold completedCount
    rw [happ, List.countP_append]
    by_cases hpe : pid = req.paymentIntentId.getD ""
    · have hzero : db.payments.countP
          (fun p => p.status == "completed" && paymentMatches pid p) = 0 := by
        rw [List.countP_eq_zero]
        intro a ha hcontra
        have hm : paymentMatches (req.paymentIntentId.getD "") a = true := by
          rw [← hpe]
          rw [Bool.and_eq_true] at hcontra
          exact hcontra.2
        exact absurd hm (by simpa using List.find?_eq_none.1 hnone a ha)
      have hone : List.countP
          (fun p => p.status == "completed" && paymentMatches pid p)
          [mkEnrollPayment req] ≤ 1 := by
        simpa using List.countP_le_length _
      omega
    · have hnew : ((mkEnrollPayment req).status == "completed" &&
          paymentMatches pid (mkEnrollPayment req)) = false := by
        have : (req.paymentIntentId.getD "" == pid) = false := by
          simpa using fun hsym => hpe hsym.symm
        simp [paymentMatches, mkEnrollPayment, this]
      rw [List.countP_cons_of_neg _ _ (by simp [hnew]), List.countP_nil]
      simpa using h pid

/-- Witness for the C2 amended theorem at the concrete fixture. -/
theorem processEnrollment_preserves_completed_uniqueness_witness :
    completedCount "pi_1"
      (processEnrollment stripeOk dbOneClass enrollReq1).2 ≤ 1 :=
  processEnrollment_preserves_completed_uniqueness stripeOk dbOneClass
    enrollReq1 (fun _ => by simp [completedCount, dbOneClass]) "pi_1"

/-- A pending (not yet approved) class. -/
def clsPending : ClassDoc :=
  { clsApproved with id := "cls3", status := "pending" }

/-- A database holding just the pending class. -/
def dbPendingClass : Db := ⟨[], [], [clsPending], [], [], [], []⟩

/-- A Stripe stub whose intents are still processing (not succeeded). -/
def stripeProcessing : String → Option String := fun _ => some "processing"

/-- An enrollment request aimed at the pending class. -/
def enrollReqPending : EnrollReq := { enrollReq1 with classId := some "cls3" }

/-- C3 counterexample: the referenced class has status `"pending"`, yet with
a non-succeeded payment the call fails with the payment-not-successful
error, not the not-available error — the payment check runs first, so the
not-available failure is NOT independent of the payment state. -/
theorem processEnrollment_payment_error_precedes_notAvailable :
    dbPendingClass.classes.find?
      (fun x => x.id == enrollReqPending.classId.getD "") = some clsPending ∧
    clsPending.status = "pending" ∧
    processEnrollment stripeProcessing dbPendingClass enrollReqPending =
      (⟨400, false, "Payment was not successful"⟩, dbPendingClass) :=
  ⟨rfl, rfl, by decide⟩

/-- C3 amended: with required fields present, each failing precondition of
`POST /process-enrollment` produces its error with no database mutation —
unverifiable payment or non-succeeded payment yields the payment error,
and once the payment is confirmed succeeded a missing class yields
not-found and a non-approved class yields not-available. -/
theorem processEnrollment_precondition_failures
    (stripe : String → Option String) (db : Db) (req : EnrollReq)
    (hvalid : enrollFieldsValid req = true) :
    (stripe (req.paymentIntentId.getD "") = none →
      processEnrollment stripe db req =
        (⟨400, false, "Unable to verify payment"⟩, db)) ∧
    (∀ s, stripe (req.paymentIntentId.getD "") = some s → s ≠ "succeeded" →
      processEnrollment stripe db req =
        (⟨400, false, "Payment was not successful"⟩, db)) ∧
    (stripe (req.paymentIntentId.getD "") = some "succeeded" →
      db.classes.find? (fun x => x.id == req.classId.getD "") = none →
      processEnrollment stripe db req = (⟨404, false, "Class not found"⟩, db)) ∧
    (∀ c, stripe (req.paymentIntentId.getD "") = some "succeeded" →
      db.classes.find? (fun x => x.id == req.classId.getD "") = some c →
      c.status ≠ "approved" →
      processEnrollment stripe db req =
        (⟨400, false, "Class is not available for enrollment"⟩, db)) := by
  refine ⟨?_, ?_, ?_, ?_⟩
  · intro h; simp [processEnrollment, hvalid, h]
  · intro s hs hne; simp [processEnrollment, hvalid, hs, hne]
  · intro hs hnone; simp [processEnrollment, hvalid, hs, hnone]
  · intro c hs hc hne; simp [processEnrollment, hvalid, hs, hc, hne]

/-- Witness for the C3 amended theorem: a processing (non-succeeded)
payment is rejected with the payment error and no mutation. -/
theorem processEnrollment_precondition_failures_witness :
    processEnrollment stripeProcessing dbOneClass enrollReq1 =
      (⟨400, false, "Payment was not successful"⟩, dbOneClass) :=
  (processEnrollment_precondition_failures stripeProcessing dbOneClass
    enrollReq1 (by decide)).2.1 "processing" rfl (by decide)

/-- An approved class in which `stu1` is already enrolled. -/
def clsEnrolled : ClassDoc :=
  { clsApproved with id := "cls4", enrolledStudents := some ["stu1"] }

/-- A database holding just the already-enrolled class. -/
def dbEnrolled : Db := ⟨[], [], [clsEnrolled], [], [], [], []⟩

/-- A Stripe stub succeeding on every intent. -/
def stripeAlways : String → Option String := fun _ => some "succeeded"

/-- An enrollment request aimed at the already-enrolled class. -/
def enrollReq4 : EnrollReq := { enrollReq1 with classId := some "cls4" }

/-- C4: when the payment succeeded, the class exists and is approved, and
the student uid is already in the enrolled set, `POST /process-enrollment`
returns success and the database is completely unchanged (no payment record
inserted, enrolled set untouched). -/
theorem processEnrollment_already_enrolled
    (stripe : String → Option String) (db : Db) (req : EnrollReq) (c : ClassDoc)
    (hvalid : enrollFieldsValid req = true)
    (hstripe : stripe (req.paymentIntentId.getD "") = some "succeeded")
    (hfind : db.classes.find? (fun x => x.id == req.classId.getD "") = some c)
    (happroved : c.status = "approved")
    (hen : enrolledContains c (req.studentUid.getD "") = true) :
    processEnrollment stripe db req =
      (⟨200, true, "Student is already enrolled in this class"⟩, db) :=
  processEnrollment_enrolled_eq stripe db req c hvalid hstripe hfind
    happroved hen

/-- Witness for C4 at the concrete fixture. -/
theorem processEnrollment_already_enrolled_witness :
    processEnrollment stripeAlways dbEnrolled enrollReq4 =
      (⟨200, true, "Student is already enrolled in this class"⟩, dbEnrolled) :=
  processEnrollment_already_enrolled stripeAlways dbEnrolled enrollReq4
    clsEnrolled (by decide) rfl rfl rfl (by decide)

/-- C5 counterexample: the user read endpoints `GET /users` and
`GET /users/:uid` are registered WITH the `verifyJWT` middleware, which
rejects any request lacking an `Authorization` header; meanwhile
`POST /users` (not a read) is registered WITHOUT the middleware. -/
theorem usersRead_requires_token :
    (⟨"GET", "/users", true⟩ : Route) ∈ routes ∧
    (⟨"GET", "/users/:uid", true⟩ : Route) ∈ routes ∧
    (⟨"POST", "/users", false⟩ : Route) ∈ routes ∧
    verifyJWT (fun _ => some "user@edu.io") none =
      .rejected 401 "No token provided" :=
  ⟨by decide, by decide, by decide, rfl⟩

/-- Routes registered without the `verifyJWT` middleware: the root and JWT
issuing endpoints, user registration, and the evaluation and popular-class
reads. -/
def tokenExempt (r : Route) : Bool :=
  (r.method == "GET" && (r.path == "/" || r.path == "/popular-classes" ||
    r.path == "/teaching-evaluations")) ||
  (r.method == "POST" && (r.path == "/jwt" || r.path == "/users"))

/-- C5 amended: a bearer token is required on every route except `GET /`,
`POST /jwt`, `POST /users`, `GET /teaching-evaluations` and
`GET /popular-classes`; in particular the user read endpoints DO require a
token.  On protected routes `verifyJWT` rejects a missing header with 401
and only lets a request through when `jwt.verify` accepts the extracted
bearer token. -/
theorem routes_auth_policy :
    (∀ r ∈ routes, r.requiresAuth = !(tokenExempt r)) ∧
    (∀ verify : String → Option String,
      verifyJWT verify none = .rejected 401 "No token provided") ∧
    (∀ (verify : String → Option String) (a : Option String) (email : String),
      verifyJWT verify a = .authorized email →
      ∃ tok, tok ≠ "" ∧ verify tok = some email) := by
  refine ⟨by decide, fun _ => rfl, ?_⟩
  intro verify a email h
  cases a with
  | none => exact absurd h (by simp [verifyJWT])
  | some s =>
      simp only [verifyJWT] at h
      by_cases hs : (s == "") = true
      · rw [if_pos hs] at h
        exact absurd h (by simp)
      · rw [if_neg hs] at h
        by_cases ht : ((s.splitOn " ").getD 1 "" == "") = true
        · rw [if_pos ht] at h
          exact absurd h (by simp)
        · rw [if_neg ht] at h
          cases hv : verify ((s.splitOn " ").getD 1 "") with
          | none => rw [hv] at h; exact absurd h (by simp)
          | some e =>
              rw [hv] at h
              refine ⟨(s.splitOn " ").getD 1 "", ?_, ?_⟩
              · intro hemp
                exact ht (by rw [hemp]; rfl)
              · have he : e = email := by
                  simpa using h
                rw [← he]
                exact hv

/-- Witness for the C5 amended theorem at concrete inputs. -/
theorem routes_auth_policy_witness :
    (⟨"POST", "/classes", true⟩ : Route).requiresAuth = true ∧
    verifyJWT (fun _ => some "user@edu.io") none =
      .rejected 401 "No token provided" := by
  have h := routes_auth_policy
  refine ⟨?_, h.2.1 _⟩
  rw [h.1 ⟨"POST", "/classes", true⟩ (by decide)]
  decide

/-- The empty database. -/
def emptyDb : Db := ⟨[], [], [], [], [], [], []⟩

/-- A `POST /classes` body with every field absent. -/
def badClassReq : PostClassesReq := ⟨none, none, none, none, none, none, none⟩

/-- C6 counterexample: a `POST /classes` request missing title, teacherUid
and price is NOT rejected — the handler inserts a class document and
answers 201, because it performs no required-field validation. -/
theorem postClasses_accepts_missing_fields :
    badClassReq.title = none ∧ badClassReq.teacherUid = none ∧
    badClassReq.price = none ∧
    (postClasses emptyDb "cls9" badClassReq).1 =
      ⟨201, true, "Class created successfully and awaiting approval"⟩ ∧
    (postClasses emptyDb "cls9" badClassReq).2.classes.length = 1 :=
  ⟨rfl, rfl, rfl, rfl, rfl⟩

/-- C6 amended: every create/update handler outside the enrollment workflow
EXCEPT `POST /classes` rejects a body with missing (or invalid-enum)
required fields with a 400 response and no database change; `POST /classes`
alone performs no validation and always inserts a class document. -/
theorem handlers_validate_required_fields :
    (∀ db req, usersFieldsValid req = false →
      postUsers db req =
        (⟨400, false, "Missing required fields: uid, name, email"⟩, db)) ∧
    (∀ db newId req, applicationFieldsValid req = false →
      postTeacherApplications db newId req =
        (⟨400, false, "Missing required fields"⟩, db)) ∧
    (∀ db id status, validAppStatus status = false →
      patchApplicationStatus db id status =
        (⟨400, false,
          "Invalid status. Must be \x27approved\x27 or \x27rejected\x27"⟩, db)) ∧
    (∀ db uid role, validRole role = false →
      patchUserRole db uid role = (⟨400, false, "Invalid role"⟩, db)) ∧
    (∀ db id status, validClassStatus status = false →
      patchClassStatus db id status =
        (⟨400, false,
          "Invalid status. Must be \x27approved\x27, \x27rejected\x27, or \x27pending\x27"⟩,
         db)) ∧
    (∀ db id req, contentFieldsValid req = false →
      patchClassContent db id req =
        (⟨400, false, "Missing required fields"⟩, db)) ∧
    (∀ db req, assignmentFieldsValid req = false →
      postAssignments db req = (⟨400, false, "Missing required fields"⟩, db)) ∧
    (∀ db req, submissionFieldsValid req = false →
      postSubmissions db req = (⟨400, false, "Missing required fields"⟩, db)) ∧
    (∀ db req, evalFieldsValid req = false →
      postTeachingEvaluations db req =
        (⟨400, false, "Missing required fields"⟩, db)) ∧
    (∀ db newId req, (postClasses db newId req).1 =
        ⟨201, true, "Class created successfully and awaiting approval"⟩ ∧
      (postClasses db newId req).2.classes.length = db.classes.length + 1) := by
  refine ⟨?_, ?_, ?_, ?_, ?_, ?_, ?_, ?_, ?_, ?_⟩
  · intro db req h; simp [postUsers, h]
  · intro db newId req h; simp [postTeacherApplications, h]
  · intro db id status h; simp [patchApplicationStatus, h]
  · intro db uid role h; simp [patchUserRole, h]
  · intro db id status h; simp [patchClassStatus, h]
  · intro db id req h; simp [patchClassContent, h]
  · intro db req h; simp [postAssignments, h]
  · intro db req h; simp [postSubmissions, h]
  · intro db req h; simp [postTeachingEvaluations, h]
  · intro db newId req; exact ⟨rfl, by simp [postClasses]⟩

/-- Witness for the C6 amended theorem at a concrete invalid body. -/
theorem handlers_validate_required_fields_witness :
    postUsers emptyDb ⟨none, none, none, none⟩ =
      (⟨400, false, "Missing required fields: uid, name, email"⟩, emptyDb) :=
  handlers_validate_required_fields.1 emptyDb ⟨none, none, none, none⟩ rfl

lemma find?_append_of_none (p : α → Bool) (l₁ l₂ : List α)
    (h : l₁.find? p = none) : (l₁ ++ l₂).find? p = l₂.find? p := by
  induction l₁ with
  | nil => rfl
  | cons a l ih =>
      rw [List.find?_cons] at h
      cases hpa : p a with
      | true => rw [hpa] at h; exact absurd h (by simp)
      | false =>
          rw [hpa] at h
          simpa [List.find?_cons, hpa] using ih h

/-- C7: a first `POST /users` for a fresh uid stores the user with role
`"student"`, and a second call with the same uid answers 409 and leaves the
database exactly as it was after the first call. -/
theorem postUsers_duplicate_conflict
    (db : Db) (req req2 : PostUsersReq) (uid : String)
    (hvalid : usersFieldsValid req = true)
    (hvalid2 : usersFieldsValid req2 = true)
    (huid : req.uid = some uid) (huid2 : req2.uid = some uid)
    (hnone : db.users.find? (fun x => x.uid == uid) = none) :
    (postUsers db req).1 = ⟨201, true, "User registered successfully"⟩ ∧
    (postUsers db req).2.users = db.users ++
      [⟨uid, req.name.getD "", req.email.getD "", req.photoURL.getD "",
        "student"⟩] ∧
    postUsers (postUsers db req).2 req2 =
      (⟨409, false, "User already exists"⟩, (postUsers db req).2) := by
  have huideq : req.uid.getD "" = uid := by rw [huid]; rfl
  have huideq2 : req2.uid.getD "" = uid := by rw [huid2]; rfl
  have hnone' : db.users.find? (fun x => x.uid == req.uid.getD "") = none := by
    rw [huideq]; exact hnone
  have h1 : postUsers db req =
      (⟨201, true, "User registered successfully"⟩,
        { db with users := db.users ++
            [⟨uid, req.name.getD "", req.email.getD "", req.photoURL.getD "",
              "student"⟩] }) := by
    simp [postUsers, hvalid, hnone', huideq, hnone]
  refine ⟨by rw [h1], by rw [h1], ?_⟩
  rw [h1]
  have hfound : (db.users ++
      [(⟨uid, req.name.getD "", req.email.getD "", req.photoURL.getD "",
        "student"⟩ : User)]).find? (fun x => x.uid == req2.uid.getD "") =
      some ⟨uid, req.name.getD "", req.email.getD "", req.photoURL.getD "",
        "student"⟩ := by
    rw [huideq2]
    exact (find?_append_of_none _ _ _ hnone).trans (by simp [List.find?_cons])
  simp [postUsers, hvalid2, hfound]

/-- Witness for C7 at the concrete fixture. -/
theorem postUsers_duplicate_conflict_witness :
    (postUsers emptyDb ⟨some "u1", some "Nadia", some "n@edu.io", none⟩).1 =
      ⟨201, true, "User registered successfully"⟩ ∧
    (postUsers emptyDb ⟨some "u1", some "Nadia", some "n@edu.io", none⟩).2.users =
      emptyDb.users ++ [⟨"u1", "Nadia", "n@edu.io", "", "student"⟩] ∧
    postUsers (postUsers emptyDb
        ⟨some "u1", some "Nadia", some "n@edu.io", none⟩).2
        ⟨some "u1", some "Nadia", some "n@edu.io", none⟩ =
      (⟨409, false, "User already exists"⟩,
        (postUsers emptyDb ⟨some "u1", some "Nadia", some "n@edu.io", none⟩).2) :=
  postUsers_duplicate_conflict emptyDb
    ⟨some "u1", some "Nadia", some "n@edu.io", none⟩
    ⟨some "u1", some "Nadia", some "n@edu.io", none⟩ "u1"
    (by decide) (by decide) rfl rfl rfl

/-- C8: any `POST /teaching-evaluations` request whose rating lies outside
`[1, 5]` is answered with a 400 validation error and the database is
unchanged (a rating of `0` trips the required-field truthiness check, every
other out-of-range rating trips the explicit range check). -/
theorem teachingEvaluations_rejects_out_of_range
    (db : Db) (req : EvalReq) (r : Int)
    (hr : req.rating = some r) (hout : r < 1 ∨ 5 < r) :
    (postTeachingEvaluations db req).1.status = 400 ∧
    (postTeachingEvaluations db req).1.success = false ∧
    (postTeachingEvaluations db req).2 = db := by
  by_cases hv : evalFieldsValid req = true
  · have hcond : (req.rating.getD 0 < 1 || 5 < req.rating.getD 0) = true := by
      rw [hr]
      show (decide (r < 1) || decide (5 < r)) = true
      rcases hout with h | h
      · simp [h]
      · simp [h]
    refine ⟨?_, ?_, ?_⟩ <;> simp [postTeachingEvaluations, hv, hcond]
  · have hv' : evalFieldsValid req = false := by simpa using hv
    refine ⟨?_, ?_, ?_⟩ <;> simp [postTeachingEvaluations, hv']

/-- Witness for C8 at a concrete rating of 6. -/
theorem teachingEvaluations_rejects_out_of_range_witness :
    (postTeachingEvaluations emptyDb
        ⟨some "cls1", some "t1", some "stu1", some "S", some "s@edu.io",
          some 6, some "great"⟩).1.status = 400 ∧
    (postTeachingEvaluations emptyDb
        ⟨some "cls1", some "t1", some "stu1", some "S", some "s@edu.io",
          some 6, some "great"⟩).1.success = false ∧
    (postTeachingEvaluations emptyDb
        ⟨some "cls1", some "t1", some "stu1", some "S", some "s@edu.io",
          some 6, some "great"⟩).2 = emptyDb :=
  teachingEvaluations_rejects_out_of_range emptyDb
    ⟨some "cls1", some "t1", some "stu1", some "S", some "s@edu.io",
      some 6, some "great"⟩ 6 rfl (Or.inr (by decide))

/-- C9: the `GET /popular-classes` result contains only approved classes,
has at most 6 entries, and is sorted by descending enrolled-student count
(absent `enrolledStudents` counting as 0 via `$ifNull`). -/
theorem popularClasses_approved_sorted_limited (db : Db) :
    (∀ c, c ∈ popularClasses db → c.status = "approved") ∧
    (popularClasses db).length ≤ 6 ∧
    List.Sorted popularityOrder (popularClasses db) := by
  refine ⟨?_, ?_, ?_⟩
  · intro c hc
    have h1 : c ∈ (db.classes.filter
        (fun x => x.status == "approved")).insertionSort popularityOrder :=
      (List.take_sublist _ _).subset hc
    have h2 : c ∈ db.classes.filter (fun x => x.status == "approved") :=
      (List.mem_insertionSort popularityOrder).1 h1
    simpa using (List.mem_filter.1 h2).2
  · exact List.length_take_le 6
      ((db.classes.filter
        (fun x => x.status == "approved")).insertionSort popularityOrder)
  · exact List.Pairwise.sublist (List.take_sublist _ _)
      (List.sorted_insertionSort popularityOrder _)

/-- Witness for C9 at the concrete fixture. -/
theorem popularClasses_approved_sorted_limited_witness :
    clsApproved ∈ popularClasses dbOneClass ∧ clsApproved.status = "approved" :=
  ⟨by decide,
    (popularClasses_approved_sorted_limited dbOneClass).1 clsApproved
      (by decide)⟩

/-- A content-update body with every required field present. -/
def contentReq1 : PatchContentReq :=
  ⟨some "New title", some 60, some "desc", some "img"⟩

/-- C10: a valid `PATCH /classes/:id/content` answers success for ANY id —
even one matching no class — because the handler never checks
`matchedCount`; by contrast `PATCH /classes/:id` and `DELETE /classes/:id`
answer 404 when the id matches no class. -/
theorem patchClassContent_never_notFound
    (db : Db) (id : String) (req : PatchContentReq)
    (hvalid : contentFieldsValid req = true) :
    (patchClassContent db id req).1 =
      ⟨200, true, "Class updated successfully"⟩ ∧
    (db.classes.find? (fun c => c.id == id) = none →
      patchClassStatus db id (some "approved") =
        (⟨404, false, "Class not found"⟩, db) ∧
      deleteClass db id = (⟨404, false, "Class not found"⟩, db)) := by
  constructor
  · simp [patchClassContent, hvalid]
  · intro hnone
    constructor
    · simp [patchClassStatus, validClassStatus, hnone]
    · simp [deleteClass, hnone]

/-- Witness for C10 at a concrete id absent from the store. -/
theorem patchClassContent_never_notFound_witness :
    (patchClassContent emptyDb "nope" contentReq1).1 =
      ⟨200, true, "Class updated successfully"⟩ ∧
    patchClassStatus emptyDb "nope" (some "approved") =
      (⟨404, false, "Class not found"⟩, emptyDb) ∧
    deleteClass emptyDb "nope" = (⟨404, false, "Class not found"⟩, emptyDb) := by
  have h := patchClassContent_never_notFound emptyDb "nope" contentReq1 rfl
  exact ⟨h.1, (h.2 rfl).1, (h.2 rfl).2⟩
